import Mathlib

/-!
Verification of the wind-turbine backend's power-generation and streaming core.

The JavaScript sources are shallowly embedded: JS numbers are modelled as
exact rationals (`ℚ`), `Math.random()` draws become explicit parameters
constrained to `[0,1)` in hypotheses, module-level mutable state becomes an
explicit state value threaded through the functions, and HTTP handlers become
pure functions from a request value to an outcome value.
-/

/-- `Math.round(x * 100) / 100`, the two-decimal rounding used on every
generated power value.  JS `Math.round` is `⌊x + 1/2⌋`, which is exactly
Mathlib's `round` on `ℚ`. -/
def round2 (x : ℚ) : ℚ := (round (x * 100) : ℚ) / 100

theorem round_rat_mono {x y : ℚ} (h : x ≤ y) : round x ≤ round y := by
  rw [round_eq, round_eq]
  exact Int.floor_le_floor (by linarith)

theorem round2_mono {x y : ℚ} (h : x ≤ y) : round2 x ≤ round2 y := by
  unfold round2
  have h1 : round (x * 100) ≤ round (y * 100) :=
    round_rat_mono (by linarith)
  have h2 : ((round (x * 100) : ℤ) : ℚ) ≤ ((round (y * 100) : ℤ) : ℚ) := by
    exact_mod_cast h1
  linarith

theorem round2_int_div (n : ℤ) : round2 ((n : ℚ) / 100) = (n : ℚ) / 100 := by
  unfold round2
  rw [div_mul_cancel₀ _ (by norm_num : (100 : ℚ) ≠ 0), round_intCast]

/-- If `x ≤ n/100` for an integer `n` then the rounded value stays below
`n/100` (two-decimal grid points are fixed by `round2`). -/
theorem round2_le_int_div {x : ℚ} {n : ℤ} (h : x ≤ (n : ℚ) / 100) :
    round2 x ≤ (n : ℚ) / 100 := by
  calc round2 x ≤ round2 ((n : ℚ) / 100) := round2_mono h
    _ = (n : ℚ) / 100 := round2_int_div n

theorem int_div_le_round2 {x : ℚ} {n : ℤ} (h : (n : ℚ) / 100 ≤ x) :
    (n : ℚ) / 100 ≤ round2 x := by
  calc (n : ℚ) / 100 = round2 ((n : ℚ) / 100) := (round2_int_div n).symm
    _ ≤ round2 x := round2_mono h

theorem round2_zero : round2 0 = 0 := by
  unfold round2
  norm_num

/-- `round2 x * 100` is an integer: the result carries two decimal places. -/
theorem round2_two_decimals (x : ℚ) : ∃ n : ℤ, round2 x * 100 = (n : ℚ) := by
  refine ⟨round (x * 100), ?_⟩
  unfold round2
  field_simp

namespace Simulator

/-! ### `streaming-service/simulator.js` -/

/-- `getTimeBasedWindFactor`: deterministic wind factor from the hour of day. -/
def getTimeBasedWindFactor (hour : ℕ) : ℚ :=
  if 22 ≤ hour ∨ hour ≤ 6 then 12/10
  else if 10 ≤ hour ∧ hour ≤ 16 then 6/10
  else 9/10

/-- One entry of the `events` array in `simulateWeatherEvents`. -/
structure WeatherEventSpec where
  type : String
  factor : ℚ
  duration : ℤ
deriving DecidableEq

def stormEvent : WeatherEventSpec := ⟨"storm", 2/10, 5⟩
def highPressureEvent : WeatherEventSpec := ⟨"high_pressure", 15/10, 10⟩
def maintenanceEvent : WeatherEventSpec := ⟨"maintenance_window", 0, 3⟩

def weatherEventChoices : List WeatherEventSpec :=
  [stormEvent, highPressureEvent, maintenanceEvent]

/-- The module-level mutable pair `weatherEvent` / `weatherEventDuration`. -/
structure WeatherState where
  weatherEvent : Option WeatherEventSpec
  weatherEventDuration : ℤ
deriving DecidableEq

/-- `Math.floor(Math.random() * n)` with `r` the raw `[0,1)` draw. -/
def pickIndex (r : ℚ) (n : ℕ) : ℕ := (⌊r * n⌋).toNat

/-- `simulateWeatherEvents`: possibly spawn an event (5% chance, uniform pick
among the three kinds), then, if an event is active, decrement its remaining
duration, clear it at `≤ 0`, and return its factor; else return `1.0`.
`rStart` is the spawn draw, `rPick` the uniform selection draw. -/
def simulateWeatherEvents (s : WeatherState) (rStart rPick : ℚ) :
    ℚ × WeatherState :=
  let s1 :=
    match s.weatherEvent with
    | none =>
        if rStart < 1/20 then
          let ev := weatherEventChoices.getD (pickIndex rPick 3) stormEvent
          ({ weatherEvent := some ev, weatherEventDuration := ev.duration } :
            WeatherState)
        else s
    | some _ => s
  match s1.weatherEvent with
  | some ev =>
      let d := s1.weatherEventDuration - 1
      (ev.factor,
        { weatherEvent := if d ≤ 0 then none else some ev,
          weatherEventDuration := d })
  | none => (1, s1)

/-- One entry of the `outlierTypes` array: a name and a generator taking the
rated capacity and the generator's own `Math.random()` draw. -/
structure OutlierType where
  name : String
  generator : ℚ → ℚ → ℚ

def outlierTypes : List OutlierType :=
  [⟨"negative_reading", fun R r => -(r * R * (5/10))⟩,
   ⟨"zero_reading", fun _ _ => 0⟩,
   ⟨"extremely_high", fun R r => R * (2 + r * 3)⟩,
   ⟨"minor_negative", fun _ r => -(r * 50)⟩,
   ⟨"unrealistic_spike", fun R r => R * (15/10 + r * 2)⟩]

/-- A generated reading (the object literal returned by the generators).
The ISO timestamp string is threaded through unchanged and omitted here. -/
structure Reading where
  windTurbineId : String
  powerKW : ℚ
  outlier : Bool
  outlierType : Option String
deriving DecidableEq

/-- `generateOutlierReading`: pick one of the five fault shapes uniformly and
round its generated value to two decimals. -/
def generateOutlierReading (turbineId : String) (R : ℚ) (rPick rVal : ℚ) :
    Reading :=
  let sel := outlierTypes.getD (pickIndex rPick 5) ⟨"zero_reading", fun _ _ => 0⟩
  { windTurbineId := turbineId
    powerKW := round2 (sel.generator R rVal)
    outlier := true
    outlierType := some sel.name }

/-- The `Math.random()` draws consumed by one `generatePowerOutput` call. -/
structure GenRands where
  rOutlier : ℚ
  rOutPick : ℚ
  rOutVal : ℚ
  rWeatherStart : ℚ
  rWeatherPick : ℚ
  rVar : ℚ
  rEff : ℚ
deriving DecidableEq

/-- `generatePowerOutput` of the simulator: outlier branch, or the
time/weather/variation/efficiency product clamped to `[0, 1.2 R]` and rounded.
`hour` is the wall-clock hour consulted by `getTimeBasedWindFactor`.
Returns the reading together with the updated weather state. -/
def generatePowerOutput (outlierChance : ℚ) (turbineId : String) (R : ℚ)
    (hour : ℕ) (s : WeatherState) (g : GenRands) : Reading × WeatherState :=
  if 0 < outlierChance ∧ g.rOutlier * 100 < outlierChance then
    (generateOutlierReading turbineId R g.rOutPick g.rOutVal, s)
  else
    let windStrength0 := getTimeBasedWindFactor hour
    let w := simulateWeatherEvents s g.rWeatherStart g.rWeatherPick
    let windStrength1 := windStrength0 * w.1
    let windVariation := 8/10 + g.rVar * (4/10)
    let windStrength2 := windStrength1 * windVariation
    let turbineEfficiency := 85/100 + g.rEff * (3/10)
    let powerKW0 := R * windStrength2 * turbineEfficiency
    let powerKW := max 0 (min powerKW0 (R * (12/10)))
    ({ windTurbineId := turbineId
       powerKW := round2 powerKW
       outlier := false
       outlierType := none }, w.2)

/-- The inner loop of one batch in `runSimulation`:
`batch.map(turbine => generatePowerOutput(turbine, timestamp))`, threading the
module-level weather state through the calls in order.  Each turbine is a
`(id, ratedCapacityKW)` pair and consumes one `GenRands` bundle. -/
def processBatch (outlierChance : ℚ) (hour : ℕ) :
    List (String × ℚ) → List GenRands → WeatherState →
    List Reading × WeatherState
  | [], _, s => ([], s)
  | _, [], s => ([], s)
  | t :: ts, g :: gs, s =>
      let r := generatePowerOutput outlierChance t.1 t.2 hour s g
      let rest := processBatch outlierChance hour ts gs r.2
      (r.1 :: rest.1, rest.2)

/-- Iterated weather ticks (specification-side helper). -/
def applyTicks : WeatherState → List (ℚ × ℚ) → WeatherState
  | s, [] => s
  | s, d :: ds => applyTicks (simulateWeatherEvents s d.1 d.2).2 ds

/-- The weather draws of exactly those turbines whose reading takes the
non-outlier branch (specification-side helper). -/
def nonOutlierDraws (outlierChance : ℚ) :
    List (String × ℚ) → List GenRands → List (ℚ × ℚ)
  | [], _ => []
  | _, [] => []
  | _ :: ts, g :: gs =>
      if 0 < outlierChance ∧ g.rOutlier * 100 < outlierChance then
        nonOutlierDraws outlierChance ts gs
      else
        (g.rWeatherStart, g.rWeatherPick) :: nonOutlierDraws outlierChance ts gs

end Simulator

namespace DataGenerator

/-! ### `src/services/dataGenerator.js` -/

/-- The record returned by `generatePowerOutput` (timestamp threaded through
unchanged and omitted). -/
structure PowerOutputRecord where
  windTurbineId : String
  powerKW : ℚ
deriving DecidableEq

/-- The `faker.number.float({min, max})` range from which the wind-strength
factor is drawn, per hour band. -/
def windStrengthRange (hour : ℕ) : ℚ × ℚ :=
  if 22 ≤ hour ∨ hour ≤ 6 then (7/10, 1)
  else if 10 ≤ hour ∧ hour ≤ 16 then (3/10, 7/10)
  else (5/10, 9/10)

/-- A wind-strength draw the code can produce at the given hour. -/
def validWindStrength (hour : ℕ) (w : ℚ) : Prop :=
  (windStrengthRange hour).1 ≤ w ∧ w ≤ (windStrengthRange hour).2

/-- `generatePowerOutput` of the data generator: product of the drawn
wind-strength, random and efficiency factors, capped at `1.2 ×` rated
capacity, floored at `0`, and rounded to two decimals.  The three faker draws
are explicit parameters. -/
def generatePowerOutput (windTurbineId : String) (ratedCapacityKW : ℚ)
    (windStrengthFactor randomFactor turbineEfficiency : ℚ) :
    PowerOutputRecord :=
  let powerKW0 := ratedCapacityKW * windStrengthFactor * randomFactor *
    turbineEfficiency
  let powerKW1 := min powerKW0 (ratedCapacityKW * (12/10))
  let powerKW2 := max 0 powerKW1
  { windTurbineId := windTurbineId
    powerKW := round2 powerKW2 }

end DataGenerator

namespace Streaming

/-! ### `src/routes/streaming.js` and `src/utils/pagination.js` -/

def DEFAULT_LIMIT : ℤ := 25
def MAX_LIMIT : ℤ := 100
def MIN_LIMIT : ℤ := 1

/-- `validateLimit(limit, defaultLimit)`: `parseInt(limit) || defaultLimit`
clamped to `[MIN_LIMIT, MAX_LIMIT]` (on an integer input, `parseInt` is the
identity and `|| defaultLimit` fires exactly on `0`). -/
def validateLimit (limit : ℤ) (defaultLimit : ℤ) : ℤ :=
  let parsedLimit := if limit = 0 then defaultLimit else limit
  min MAX_LIMIT (max MIN_LIMIT parsedLimit)

/-- `value.split(',')`: split a character list at every comma (query-string
values are modelled as lists of characters). -/
def splitOnComma : List Char → List (List Char)
  | [] => [[]]
  | c :: rest =>
      let r := splitOnComma rest
      if c = ',' then [] :: r
      else (c :: r.headD []) :: r.tail

/-- `id.trim()`: strip leading and trailing whitespace. -/
def trimChars (cs : List Char) : List Char :=
  ((cs.dropWhile Char.isWhitespace).reverse.dropWhile Char.isWhitespace).reverse

/-- `windTurbineIds.split(',').map(id => id.trim()).filter(id => id)`. -/
def parseTurbineIds (cs : List Char) : List (List Char) :=
  ((splitOnComma cs).map trimChars).filter (fun t => t ≠ [])

/-- The query parameters of `GET /power-output` after normalization: the
optional `windTurbineIds` string and the `interval` value (default `10`
supplied by the destructuring). -/
structure SubscribeRequest where
  windTurbineIds : Option (List Char)
  interval : ℤ
deriving DecidableEq

inductive SubscribeOutcome where
  | validationError (message : String)
  | subscribed (turbineFilter : List (List Char)) (intervalSeconds : ℤ)
deriving DecidableEq

/-- The synchronous validation performed by `GET /power-output` before a
subscription (SSE connection with its repeating timer) is created. -/
def subscribe (req : SubscribeRequest) : SubscribeOutcome :=
  match req.windTurbineIds with
  | none => .validationError
      "windTurbineIds parameter is required. Provide a comma-separated list of wind turbine IDs."
  | some s =>
      let turbineFilter := parseTurbineIds s
      if turbineFilter = [] then
        .validationError
          "At least one valid wind turbine ID must be provided in windTurbineIds parameter."
      else
        .subscribed turbineFilter req.interval

/-- One element of the `readings` array posted to
`POST /power-output/batch`.  `windTurbineId = none` models a missing (falsy)
id; `powerKW = none` models a value with `typeof !== 'number'`. -/
structure BatchReading where
  windTurbineId : Option String
  powerKW : Option ℚ
deriving DecidableEq

inductive BatchOutcome where
  | validationError (message : String)
  | saved (savedCount totalReceived : ℕ)
deriving DecidableEq

/-- The `for (const reading of readings)` loop: skip a reading when
`!reading.windTurbineId` (missing or empty id) or its `powerKW` is not a
number; otherwise persist it.  Returns the persisted readings in order. -/
def processReadings : List BatchReading → List BatchReading
  | [] => []
  | r :: rest =>
      if r.windTurbineId = none ∨ r.windTurbineId = some "" ∨ r.powerKW = none
      then processReadings rest
      else r :: processReadings rest

/-- `POST /power-output/batch`: reject only a missing/non-array body;
otherwise save the valid readings and report both counts. -/
def batchIngest (readings : Option (List BatchReading)) : BatchOutcome :=
  match readings with
  | none => .validationError "readings array is required"
  | some rs => .saved (processReadings rs).length rs.length

/-- A reading the route persists: truthy turbine id and numeric power. -/
def readingWellFormed (r : BatchReading) : Bool :=
  (match r.windTurbineId with
   | none => false
   | some s => s ≠ "") && r.powerKW.isSome

/-- A row of the `WindTurbine` table as consumed by `sendPowerData`. -/
structure Turbine where
  id : String
  name : String
  ratedCapacityKW : ℚ
  active : Bool
deriving DecidableEq

/-- One element of the `powerOutputs` array pushed in a `power-output` SSE
event. -/
structure PowerOutputItem where
  turbineId : String
  turbineName : String
  powerKW : ℚ
  ratedCapacityKW : ℚ
  efficiency : ℚ
deriving DecidableEq

/-- `WindTurbine.findAll({where: {active, id: {[Op.in]: filter}}, limit})`:
the matching rows, truncated to `limit`. -/
def queryActiveTurbines (db : List Turbine) (turbineFilter : List String)
    (limit : ℤ) : List Turbine :=
  (db.filter (fun t => t.active && turbineFilter.contains t.id)).take limit.toNat

/-- One `sendPowerData` tick: resolve the subscribed active turbines under
`validateLimit(25)`, generate a reading per resolved turbine (one faker draw
triple each), persist each reading, and build the pushed `powerOutputs`
array with the derived `efficiency`.  Returns (persisted readings, pushed
items). -/
def sendPowerData (db : List Turbine) (turbineFilter : List String)
    (draws : List (ℚ × ℚ × ℚ)) :
    List DataGenerator.PowerOutputRecord × List PowerOutputItem :=
  let turbines := queryActiveTurbines db turbineFilter
    (validateLimit 25 DEFAULT_LIMIT)
  let pairs := (turbines.zip draws).map (fun td =>
    (td.1, DataGenerator.generatePowerOutput td.1.id td.1.ratedCapacityKW
      td.2.1 td.2.2.1 td.2.2.2))
  (pairs.map (fun p => p.2),
   pairs.map (fun p =>
    { turbineId := p.1.id
      turbineName := p.1.name
      powerKW := p.2.powerKW
      ratedCapacityKW := p.1.ratedCapacityKW
      efficiency := round2 (p.2.powerKW / p.1.ratedCapacityKW * 100) }))

end Streaming

namespace SimulatorLoop

/-! ### `runSimulation` in `streaming-service/simulator.js` -/

/-- Observable outcome of one `runSimulation` invocation: the delay (ms)
passed to the `setTimeout` that schedules the next cycle, whether the call
raised out of the handler, whether the 30-second retry message was logged,
and how many per-batch submit errors were caught and logged. -/
structure CycleOutcome where
  nextDelayMs : ℕ
  raised : Bool
  retryLogged : Bool
  batchErrorsLogged : ℕ
deriving DecidableEq

def exceptFailed {ε α : Type} : Except ε α → Bool
  | .error _ => true
  | .ok _ => false

/-- One `runSimulation` cycle.  `fetchResult` is the settled
`fetchActiveTurbines()` promise; `submitResults` are the settled
`sendPowerReadings` promises of the successive batches (each caught
individually inside the batch loop).  An empty fleet schedules the fixed
30 s retry; a fetch failure is caught, logged with the retry message, and
falls through to the ordinary `setTimeout(runSimulation,
STREAMING_INTERVAL * 1000)`. -/
def runSimulationCycle (streamingInterval : ℕ)
    (fetchResult : Except String (List (String × ℚ)))
    (submitResults : List (Except String (ℕ × ℕ))) : CycleOutcome :=
  match fetchResult with
  | .error _ =>
      { nextDelayMs := streamingInterval * 1000
        raised := false
        retryLogged := true
        batchErrorsLogged := 0 }
  | .ok [] =>
      { nextDelayMs := 30000
        raised := false
        retryLogged := true
        batchErrorsLogged := 0 }
  | .ok (_ :: _) =>
      { nextDelayMs := streamingInterval * 1000
        raised := false
        retryLogged := false
        batchErrorsLogged := (submitResults.filter exceptFailed).length }

end SimulatorLoop

/-! ## Theorems -/

theorem round2_clamp_bounds (R : ℕ) (x : ℚ) :
    0 ≤ round2 (max 0 (min x ((R : ℚ) * (12/10)))) ∧
    round2 (max 0 (min x ((R : ℚ) * (12/10)))) ≤ (R : ℚ) * (12/10) := by
  constructor
  · have h0 : (0 : ℚ) ≤ max 0 (min x ((R : ℚ) * (12/10))) := le_max_left _ _
    calc (0 : ℚ) = round2 0 := round2_zero.symm
      _ ≤ round2 (max 0 (min x ((R : ℚ) * (12/10)))) := round2_mono h0
  · have hcap : (R : ℚ) * (12/10) = ((120 * R : ℤ) : ℚ) / 100 := by
      push_cast
      ring
    have hub : max 0 (min x ((R : ℚ) * (12/10))) ≤ (R : ℚ) * (12/10) := by
      apply max_le
      · positivity
      · exact min_le_right _ _
    rw [hcap] at hub ⊢
    exact round2_le_int_div hub

/-- C1: for every turbine with rated capacity `R` and every non-outlier
generated reading — in the fan-out/SSE generation path
(`DataGenerator.generatePowerOutput`) and in the external simulator path
(`Simulator.generatePowerOutput`) — the resulting `powerKW` satisfies
`0 ≤ powerKW ≤ 1.2 × R` and carries two decimal places. -/
theorem C1_nonoutlier_power_bounds (R : ℕ) (outlierChance : ℚ)
    (turbineId : String) (hour : ℕ) (s : Simulator.WeatherState)
    (g : Simulator.GenRands) (w rf te : ℚ) :
    ((Simulator.generatePowerOutput outlierChance turbineId (R : ℚ) hour s
        g).1.outlier = false →
      0 ≤ (Simulator.generatePowerOutput outlierChance turbineId (R : ℚ) hour
          s g).1.powerKW ∧
      (Simulator.generatePowerOutput outlierChance turbineId (R : ℚ) hour s
          g).1.powerKW ≤ (R : ℚ) * (12/10) ∧
      ∃ n : ℤ, (Simulator.generatePowerOutput outlierChance turbineId (R : ℚ)
          hour s g).1.powerKW * 100 = (n : ℚ)) ∧
    (0 ≤ (DataGenerator.generatePowerOutput turbineId (R : ℚ) w rf
        te).powerKW ∧
      (DataGenerator.generatePowerOutput turbineId (R : ℚ) w rf te).powerKW ≤
        (R : ℚ) * (12/10) ∧
      ∃ n : ℤ, (DataGenerator.generatePowerOutput turbineId (R : ℚ) w rf
          te).powerKW * 100 = (n : ℚ)) := by
  constructor
  · intro hno
    by_cases hout : 0 < outlierChance ∧ g.rOutlier * 100 < outlierChance
    · exfalso
      simp only [Simulator.generatePowerOutput, if_pos hout,
        Simulator.generateOutlierReading] at hno
      exact absurd hno (by simp)
    · simp only [Simulator.generatePowerOutput, if_neg hout]
      refine ⟨(round2_clamp_bounds R _).1, (round2_clamp_bounds R _).2, ?_⟩
      exact round2_two_decimals _
  · simp only [DataGenerator.generatePowerOutput]
    exact ⟨(round2_clamp_bounds R _).1, (round2_clamp_bounds R _).2,
      round2_two_decimals _⟩

theorem tick_no_event (s : Simulator.WeatherState) (r p : ℚ)
    (hn : s.weatherEvent = none) (hr : 1/20 ≤ r) :
    Simulator.simulateWeatherEvents s r p = (1, s) := by
  obtain ⟨we, d⟩ := s
  cases we with
  | some e => simp at hn
  | none =>
      simp only [Simulator.simulateWeatherEvents]
      rw [if_neg (not_lt.mpr hr)]

theorem tick_spawn (s : Simulator.WeatherState) (r p : ℚ)
    (hn : s.weatherEvent = none) (hr : r < 1/20) :
    Simulator.simulateWeatherEvents s r p =
      (let ev := Simulator.weatherEventChoices.getD (Simulator.pickIndex p 3)
        Simulator.stormEvent
       (ev.factor,
        ⟨if ev.duration - 1 ≤ 0 then none else some ev, ev.duration - 1⟩)) := by
  obtain ⟨we, d⟩ := s
  cases we with
  | some e => simp at hn
  | none =>
      simp only [Simulator.simulateWeatherEvents]
      rw [if_pos hr]

theorem tick_active (s : Simulator.WeatherState) (r p : ℚ)
    (ev : Simulator.WeatherEventSpec) (he : s.weatherEvent = some ev) :
    Simulator.simulateWeatherEvents s r p =
      (ev.factor,
        ⟨if s.weatherEventDuration - 1 ≤ 0 then none else some ev,
         s.weatherEventDuration - 1⟩) := by
  obtain ⟨we, d⟩ := s
  cases we with
  | none => simp at he
  | some e =>
      simp only [Option.some.injEq] at he
      subst he
      rfl

theorem pickIndex_lt {p : ℚ} (n : ℕ) (hp0 : 0 ≤ p) (hp1 : p < 1) (hn : 0 < n) :
    Simulator.pickIndex p n < n := by
  unfold Simulator.pickIndex
  have hcast : (0 : ℚ) < (n : ℚ) := by exact_mod_cast hn
  have h1 : ⌊p * (n : ℚ)⌋ < (n : ℤ) := by
    apply Int.floor_lt.mpr
    push_cast
    nlinarith
  have h2 : (0 : ℤ) ≤ ⌊p * (n : ℚ)⌋ := Int.floor_nonneg.mpr (by positivity)
  omega

/-- C2 (counterexample): a single generation cycle over two turbines with an
active storm event of `remainingCycles = 2` ends with the event fully
consumed — `remainingCycles` dropped by 2 in one cycle, so the weather tick is
not invoked once per cycle. -/
theorem C2_counterexample_tick_per_cycle :
    (Simulator.processBatch 0 12 [("T1", 1500), ("T2", 1500)]
      [⟨1, 0, 0, 1, 0, 0, 0⟩, ⟨1, 0, 0, 1, 0, 0, 0⟩]
      ⟨some Simulator.stormEvent, 2⟩).2 =
      ⟨none, 0⟩ ∧
    ¬ ((2 : ℤ) - (Simulator.processBatch 0 12 [("T1", 1500), ("T2", 1500)]
      [⟨1, 0, 0, 1, 0, 0, 0⟩, ⟨1, 0, 0, 1, 0, 0, 0⟩]
      ⟨some Simulator.stormEvent, 2⟩).2.weatherEventDuration ≤ 1) := by
  refine ⟨rfl, ?_⟩
  have h : (Simulator.processBatch 0 12 [("T1", 1500), ("T2", 1500)]
      [⟨1, 0, 0, 1, 0, 0, 0⟩, ⟨1, 0, 0, 1, 0, 0, 0⟩]
      ⟨some Simulator.stormEvent, 2⟩).2.weatherEventDuration = 0 := rfl
  rw [h]
  decide

/-- C2 (amended): during one generation cycle, the Weather/Time Model's tick
is invoked once per non-outlier reading — not once per cycle — so the final
weather state is the initial state advanced by one tick per non-outlier
reading, `remainingCycles` can decrease by up to the number of non-outlier
readings, and readings within a cycle need not share one `weatherFactor`. -/
theorem C2_amended_tick_per_nonoutlier_reading (outlierChance : ℚ)
    (hour : ℕ) (batch : List (String × ℚ)) (gs : List Simulator.GenRands)
    (s : Simulator.WeatherState) :
    (Simulator.processBatch outlierChance hour batch gs s).2 =
      Simulator.applyTicks s
        (Simulator.nonOutlierDraws outlierChance batch gs) ∧
    (Simulator.nonOutlierDraws outlierChance batch gs).length =
      ((Simulator.processBatch outlierChance hour batch gs s).1.filter
        (fun r => !r.outlier)).length := by
  induction batch generalizing gs s with
  | nil =>
      cases gs <;>
        simp [Simulator.processBatch, Simulator.nonOutlierDraws,
          Simulator.applyTicks]
  | cons t ts ih =>
      cases gs with
      | nil =>
          simp [Simulator.processBatch, Simulator.nonOutlierDraws,
            Simulator.applyTicks]
      | cons g gs =>
          by_cases h : 0 < outlierChance ∧ g.rOutlier * 100 < outlierChance
          · have hgen : Simulator.generatePowerOutput outlierChance t.1 t.2
                hour s g =
                (Simulator.generateOutlierReading t.1 t.2 g.rOutPick
                  g.rOutVal, s) := by
              simp only [Simulator.generatePowerOutput, if_pos h]
            simp only [Simulator.processBatch, hgen,
              Simulator.nonOutlierDraws, if_pos h]
            refine ⟨(ih gs s).1, ?_⟩
            simp only [List.filter_cons, Simulator.generateOutlierReading,
              Bool.not_true]
            exact (ih gs s).2
          · have hgen : Simulator.generatePowerOutput outlierChance t.1 t.2
                hour s g =
                ({ windTurbineId := t.1
                   powerKW := round2 (max 0 (min (t.2 *
                     (Simulator.getTimeBasedWindFactor hour *
                       (Simulator.simulateWeatherEvents s g.rWeatherStart
                         g.rWeatherPick).1 * (8/10 + g.rVar * (4/10))) *
                     (85/100 + g.rEff * (3/10))) (t.2 * (12/10))))
                   outlier := false
                   outlierType := none },
                 (Simulator.simulateWeatherEvents s g.rWeatherStart
                   g.rWeatherPick).2) := by
              simp only [Simulator.generatePowerOutput, if_neg h]
            simp only [Simulator.processBatch, hgen,
              Simulator.nonOutlierDraws, if_neg h, Simulator.applyTicks]
            constructor
            · exact (ih gs (Simulator.simulateWeatherEvents s g.rWeatherStart
                g.rWeatherPick).2).1
            · simp only [List.filter_cons, Bool.not_false, if_true,
                List.length_cons]
              rw [(ih gs (Simulator.simulateWeatherEvents s g.rWeatherStart
                g.rWeatherPick).2).2]

/-- C3: the Weather/Time Model tick returns `1.0` when no event is active,
except that with probability 5% (`rStart < 1/20`) it starts an event chosen
uniformly (index `⌊3·rPick⌋`) among storm `(0.2, 5)`, high_pressure
`(1.5, 10)` and maintenance_window `(0.0, 3)`; while an event is active it
decrements `remainingCycles`, clears the event once the counter reaches
zero, and still returns the pre-decrement event's factor in the ending
cycle. -/
theorem C3_weather_tick_cases (s : Simulator.WeatherState) (r p : ℚ) :
    (Simulator.weatherEventChoices.map
        (fun e => (e.type, e.factor, e.duration)) =
      [("storm", 2/10, 5), ("high_pressure", 15/10, 10),
       ("maintenance_window", 0, 3)]) ∧
    (s.weatherEvent = none → 1/20 ≤ r →
      Simulator.simulateWeatherEvents s r p = (1, s)) ∧
    (s.weatherEvent = none → r < 1/20 → 0 ≤ p → p < 1 →
      Simulator.pickIndex p 3 < 3 ∧
      Simulator.simulateWeatherEvents s r p =
        (let ev := Simulator.weatherEventChoices.getD
          (Simulator.pickIndex p 3) Simulator.stormEvent
         (ev.factor,
          ⟨if ev.duration - 1 ≤ 0 then none else some ev,
           ev.duration - 1⟩))) ∧
    (∀ ev, s.weatherEvent = some ev →
      Simulator.simulateWeatherEvents s r p =
        (ev.factor,
          ⟨if s.weatherEventDuration - 1 ≤ 0 then none else some ev,
           s.weatherEventDuration - 1⟩)) := by
  refine ⟨rfl, fun hn hr => tick_no_event s r p hn hr,
    fun hn hr hp0 hp1 => ⟨pickIndex_lt 3 hp0 hp1 (by norm_num), ?_⟩,
    fun ev he => tick_active s r p ev he⟩
  exact tick_spawn s r p hn hr

theorem C3_weather_tick_cases_witness :
    Simulator.pickIndex (1/2) 3 < 3 ∧
    Simulator.simulateWeatherEvents ⟨none, 0⟩ 0 (1/2) =
      (15/10, ⟨some Simulator.highPressureEvent, 9⟩) := by
  have h := (C3_weather_tick_cases ⟨none, 0⟩ 0 (1/2)).2.2.1 rfl
    (by norm_num) (by norm_num) (by norm_num)
  refine ⟨h.1, ?_⟩
  rw [h.2]
  have hidx : Simulator.pickIndex (1/2) 3 = 1 := by
    unfold Simulator.pickIndex
    norm_num
  rw [hidx]
  simp [Simulator.weatherEventChoices, Simulator.highPressureEvent]

theorem applyTicks_clears (ev : Simulator.WeatherEventSpec) :
    ∀ (draws : List (ℚ × ℚ)) (d : ℤ), 0 < d → draws.length = d.toNat →
    Simulator.applyTicks ⟨some ev, d⟩ draws = ⟨none, 0⟩ := by
  intro draws
  induction draws with
  | nil =>
      intro d hd hlen
      exfalso
      simp only [List.length_nil] at hlen
      omega
  | cons dr rest ih =>
      intro d hd hlen
      simp only [List.length_cons] at hlen
      simp only [Simulator.applyTicks]
      rw [tick_active ⟨some ev, d⟩ dr.1 dr.2 ev rfl]
      by_cases hd1 : d - 1 ≤ 0
      · have hdeq : d = 1 := by omega
        subst hdeq
        have hrest : rest = [] := List.length_eq_zero.mp (by omega)
        subst hrest
        simp [Simulator.applyTicks, if_pos hd1]
      · simp only [if_neg hd1]
        exact ih (d - 1) (by omega) (by omega)

/-- C4: from the tick that spawns an event (no event active, spawn draw below
5%), after `remainingCycles` further ticks the event is gone and the model's
returned factor is back to `1.0` (given the final tick's own spawn draw
fails); at most one event is ever active, the state being a single optional
event. -/
theorem C4_event_expires (s : Simulator.WeatherState) (r0 p0 rf pf : ℚ)
    (draws : List (ℚ × ℚ))
    (h0 : s.weatherEvent = none) (hr0 : r0 < 1/20)
    (hp0 : 0 ≤ p0) (hp1 : p0 < 1)
    (hlen : draws.length + 1 =
      ((Simulator.weatherEventChoices.getD (Simulator.pickIndex p0 3)
        Simulator.stormEvent).duration).toNat)
    (hrf : 1/20 ≤ rf) :
    (Simulator.applyTicks (Simulator.simulateWeatherEvents s r0 p0).2
        draws).weatherEvent = none ∧
    (Simulator.simulateWeatherEvents
        (Simulator.applyTicks (Simulator.simulateWeatherEvents s r0 p0).2
          draws) rf pf).1 = 1 := by
  have hidx : Simulator.pickIndex p0 3 < 3 := pickIndex_lt 3 hp0 hp1 (by norm_num)
  set ev := Simulator.weatherEventChoices.getD (Simulator.pickIndex p0 3)
    Simulator.stormEvent with hev
  have hdur : ev.duration = 5 ∨ ev.duration = 10 ∨ ev.duration = 3 := by
    have h3 : Simulator.pickIndex p0 3 = 0 ∨ Simulator.pickIndex p0 3 = 1 ∨
        Simulator.pickIndex p0 3 = 2 := by omega
    rcases h3 with h3 | h3 | h3 <;>
      simp [hev, h3, Simulator.weatherEventChoices, Simulator.stormEvent,
        Simulator.highPressureEvent, Simulator.maintenanceEvent]
  have hspawn : (Simulator.simulateWeatherEvents s r0 p0).2 =
      ⟨some ev, ev.duration - 1⟩ := by
    rw [tick_spawn s r0 p0 h0 hr0]
    have hpos : ¬ (ev.duration - 1 ≤ 0) := by omega
    simp only [← hev, if_neg hpos]
  rw [hspawn]
  have hclear : Simulator.applyTicks ⟨some ev, ev.duration - 1⟩ draws =
      ⟨none, 0⟩ := by
    apply applyTicks_clears ev draws (ev.duration - 1) (by omega)
    omega
  rw [hclear]
  exact ⟨rfl, by rw [tick_no_event ⟨none, 0⟩ rf pf rfl hrf]⟩

theorem C4_event_expires_witness :
    (Simulator.applyTicks
        (Simulator.simulateWeatherEvents ⟨none, 0⟩ 0 0).2
        [(1, 0), (1, 0), (1, 0), (1, 0)]).weatherEvent = none ∧
    (Simulator.simulateWeatherEvents
        (Simulator.applyTicks
          (Simulator.simulateWeatherEvents ⟨none, 0⟩ 0 0).2
          [(1, 0), (1, 0), (1, 0), (1, 0)]) (1/2) 0).1 = 1 := by
  apply C4_event_expires ⟨none, 0⟩ 0 0 (1/2) 0 [(1, 0), (1, 0), (1, 0), (1, 0)]
    rfl (by norm_num) (by norm_num) (by norm_num) ?_ (by norm_num)
  have hidx : Simulator.pickIndex 0 3 = 0 := by
    unfold Simulator.pickIndex
    norm_num
  rw [hidx]
  simp [Simulator.weatherEventChoices, Simulator.stormEvent]

theorem round2_ge {x c : ℚ} (hc : ∃ n : ℤ, c * 100 = (n : ℚ)) (h : c ≤ x) :
    c ≤ round2 x := by
  obtain ⟨n, hn⟩ := hc
  have hc' : c = (n : ℚ) / 100 := (eq_div_iff (by norm_num)).mpr hn
  rw [hc'] at h ⊢
  exact int_div_le_round2 h

theorem round2_le_of_le {x c : ℚ} (hc : ∃ n : ℤ, c * 100 = (n : ℚ))
    (h : x ≤ c) : round2 x ≤ c := by
  obtain ⟨n, hn⟩ := hc
  have hc' : c = (n : ℚ) / 100 := (eq_div_iff (by norm_num)).mpr hn
  rw [hc'] at h ⊢
  exact round2_le_int_div h

/-- C5: every outlier reading picks uniformly (index `⌊5·rPick⌋`) among
exactly the 5 fault shapes, is tagged with the shape used, and per shape:
zero_reading gives exactly 0; extremely_high lies in `[2R, 5R]`;
negative_reading has magnitude at most `0.5R` (and is nonpositive);
minor_negative is at most 50 kW below zero; unrealistic_spike lies in
`[1.5R, 3.5R]`. -/
theorem C5_outlier_shapes (turbineId : String) (R : ℕ) (rPick rVal : ℚ)
    (hp0 : 0 ≤ rPick) (hp1 : rPick < 1) (hv0 : 0 ≤ rVal) (hv1 : rVal < 1) :
    (Simulator.outlierTypes.map (fun t => t.name) =
      ["negative_reading", "zero_reading", "extremely_high",
       "minor_negative", "unrealistic_spike"]) ∧
    Simulator.pickIndex rPick 5 < 5 ∧
    (Simulator.generateOutlierReading turbineId (R : ℚ) rPick
      rVal).outlier = true ∧
    (Simulator.generateOutlierReading turbineId (R : ℚ) rPick
      rVal).outlierType =
      some ((Simulator.outlierTypes.getD (Simulator.pickIndex rPick 5)
        ⟨"zero_reading", fun _ _ => 0⟩).name) ∧
    ((Simulator.generateOutlierReading turbineId (R : ℚ) rPick
        rVal).outlierType = some "zero_reading" →
      (Simulator.generateOutlierReading turbineId (R : ℚ) rPick
        rVal).powerKW = 0) ∧
    ((Simulator.generateOutlierReading turbineId (R : ℚ) rPick
        rVal).outlierType = some "extremely_high" →
      2 * (R : ℚ) ≤ (Simulator.generateOutlierReading turbineId (R : ℚ)
        rPick rVal).powerKW ∧
      (Simulator.generateOutlierReading turbineId (R : ℚ) rPick
        rVal).powerKW ≤ 5 * (R : ℚ)) ∧
    ((Simulator.generateOutlierReading turbineId (R : ℚ) rPick
        rVal).outlierType = some "negative_reading" →
      -((R : ℚ) / 2) ≤ (Simulator.generateOutlierReading turbineId (R : ℚ)
        rPick rVal).powerKW ∧
      (Simulator.generateOutlierReading turbineId (R : ℚ) rPick
        rVal).powerKW ≤ 0) ∧
    ((Simulator.generateOutlierReading turbineId (R : ℚ) rPick
        rVal).outlierType = some "minor_negative" →
      -50 ≤ (Simulator.generateOutlierReading turbineId (R : ℚ) rPick
        rVal).powerKW ∧
      (Simulator.generateOutlierReading turbineId (R : ℚ) rPick
        rVal).powerKW ≤ 0) ∧
    ((Simulator.generateOutlierReading turbineId (R : ℚ) rPick
        rVal).outlierType = some "unrealistic_spike" →
      (3/2) * (R : ℚ) ≤ (Simulator.generateOutlierReading turbineId (R : ℚ)
        rPick rVal).powerKW ∧
      (Simulator.generateOutlierReading turbineId (R : ℚ) rPick
        rVal).powerKW ≤ (7/2) * (R : ℚ)) := by
  have hidx : Simulator.pickIndex rPick 5 < 5 :=
    pickIndex_lt 5 hp0 hp1 (by norm_num)
  have hR : (0 : ℚ) ≤ (R : ℚ) := Nat.cast_nonneg R
  have hcase : Simulator.pickIndex rPick 5 = 0 ∨
      Simulator.pickIndex rPick 5 = 1 ∨ Simulator.pickIndex rPick 5 = 2 ∨
      Simulator.pickIndex rPick 5 = 3 ∨ Simulator.pickIndex rPick 5 = 4 := by
    omega
  refine ⟨rfl, hidx, rfl, rfl, ?_, ?_, ?_, ?_, ?_⟩ <;>
    rcases hcase with h | h | h | h | h <;>
    simp only [Simulator.generateOutlierReading, h, Simulator.outlierTypes,
      List.getD_cons_zero, List.getD_cons_succ, Option.some.injEq] <;>
    intro hco
  -- zero_reading target, five pick cases
  case _ => exact absurd hco (by decide)
  case _ => exact round2_zero
  case _ => exact absurd hco (by decide)
  case _ => exact absurd hco (by decide)
  case _ => exact absurd hco (by decide)
  -- extremely_high target
  case _ => exact absurd hco (by decide)
  case _ => exact absurd hco (by decide)
  case _ =>
      refine ⟨round2_ge ⟨200 * R, by push_cast; ring⟩ (by nlinarith), ?_⟩
      exact round2_le_of_le ⟨500 * R, by push_cast; ring⟩ (by nlinarith)
  case _ => exact absurd hco (by decide)
  case _ => exact absurd hco (by decide)
  -- negative_reading target
  case _ =>
      refine ⟨round2_ge ⟨-(50 * R), by push_cast; ring⟩ (by nlinarith), ?_⟩
      exact round2_le_of_le ⟨0, by norm_num⟩ (by nlinarith)
  case _ => exact absurd hco (by decide)
  case _ => exact absurd hco (by decide)
  case _ => exact absurd hco (by decide)
  case _ => exact absurd hco (by decide)
  -- minor_negative target
  case _ => exact absurd hco (by decide)
  case _ => exact absurd hco (by decide)
  case _ => exact absurd hco (by decide)
  case _ =>
      refine ⟨round2_ge ⟨-5000, by norm_num⟩ (by nlinarith), ?_⟩
      exact round2_le_of_le ⟨0, by norm_num⟩ (by nlinarith)
  case _ => exact absurd hco (by decide)
  -- unrealistic_spike target
  case _ => exact absurd hco (by decide)
  case _ => exact absurd hco (by decide)
  case _ => exact absurd hco (by decide)
  case _ => exact absurd hco (by decide)
  case _ =>
      refine ⟨round2_ge ⟨150 * R, by push_cast; ring⟩ (by nlinarith), ?_⟩
      exact round2_le_of_le ⟨350 * R, by push_cast; ring⟩ (by nlinarith)

theorem C5_outlier_shapes_witness :
    (Simulator.generateOutlierReading "T1" ((1000 : ℕ) : ℚ) (1/2)
      (1/2)).outlierType = some "extremely_high" ∧
    2 * ((1000 : ℕ) : ℚ) ≤ (Simulator.generateOutlierReading "T1"
      ((1000 : ℕ) : ℚ) (1/2) (1/2)).powerKW ∧
    (Simulator.generateOutlierReading "T1" ((1000 : ℕ) : ℚ) (1/2)
      (1/2)).powerKW ≤ 5 * ((1000 : ℕ) : ℚ) := by
  have hty : (Simulator.generateOutlierReading "T1" ((1000 : ℕ) : ℚ) (1/2)
      (1/2)).outlierType = some "extremely_high" := by
    have hidx : Simulator.pickIndex (1/2) 5 = 2 := by
      unfold Simulator.pickIndex
      have hfl : ⌊(1/2 : ℚ) * ((5 : ℕ) : ℚ)⌋ = 2 := by norm_num
      rw [hfl]
      rfl
    simp only [Simulator.generateOutlierReading]
    rw [hidx]
    rfl
  have h := (C5_outlier_shapes "T1" 1000 (1/2) (1/2) (by norm_num)
    (by norm_num) (by norm_num) (by norm_num)).2.2.2.2.2.1 hty
  exact ⟨hty, h.1, h.2⟩

theorem C1_nonoutlier_power_bounds_witness :
    0 ≤ (Simulator.generatePowerOutput 0 "T1" ((1500 : ℕ) : ℚ) 12
        ⟨none, 0⟩ ⟨1, 0, 0, 1, 0, 0, 0⟩).1.powerKW ∧
    (Simulator.generatePowerOutput 0 "T1" ((1500 : ℕ) : ℚ) 12
        ⟨none, 0⟩ ⟨1, 0, 0, 1, 0, 0, 0⟩).1.powerKW ≤
      ((1500 : ℕ) : ℚ) * (12/10) ∧
    0 ≤ (DataGenerator.generatePowerOutput "T1" ((1500 : ℕ) : ℚ) (1/2) 1
        1).powerKW := by
  have h := C1_nonoutlier_power_bounds 1500 0 "T1" 12 ⟨none, 0⟩
    ⟨1, 0, 0, 1, 0, 0, 0⟩ (1/2) 1 1
  exact ⟨(h.1 (by decide)).1, (h.1 (by decide)).2.1, h.2.1⟩

/-- C6 (counterexample): in the data-generator path, at local hour 12 the
admissible wind-strength draw `1/2` yields `powerKW = 500` for a 1000 kW
turbine, whereas a deterministic `timeFactor = 0.6` would yield 600: the
midday factor is not the single value 0.6 in every generation path. -/
theorem C6_counterexample_datagen_band :
    DataGenerator.validWindStrength 12 (1/2) ∧
    (DataGenerator.generatePowerOutput "T1" 1000 (1/2) 1 1).powerKW = 500 ∧
    (DataGenerator.generatePowerOutput "T1" 1000 (1/2) 1 1).powerKW ≠
      1000 * (6/10) := by
  have hval : (DataGenerator.generatePowerOutput "T1" 1000 (1/2) 1
      1).powerKW = 500 := by
    simp only [DataGenerator.generatePowerOutput]
    have h1 : (1000 : ℚ) * (1/2) * 1 * 1 = 500 := by norm_num
    have h2 : (1000 : ℚ) * (12/10) = 1200 := by norm_num
    rw [h1, h2]
    have h3 : min (500 : ℚ) 1200 = 500 := by norm_num
    rw [h3]
    have h4 : max (0 : ℚ) 500 = 500 := by norm_num
    rw [h4]
    have h5 : ∀ x : ℚ, round2 x = (round (x * 100) : ℚ) / 100 := fun _ => rfl
    rw [h5]
    norm_num
  refine ⟨?_, hval, ?_⟩
  · constructor <;> norm_num [DataGenerator.windStrengthRange]
  · rw [hval]
    norm_num

/-- C6 (amended): only the external simulator path applies a deterministic
timeFactor — exactly 1.2 in 22:00–06:00, 0.6 in 10:00–16:00 and 0.9 in the
remaining hours (7–9 and 17–21) — while the data-generator path (SSE fan-out
and seeding) maps the same hour bands to uniform sampling ranges
`[0.7, 1.0]`, `[0.3, 0.7]` and `[0.5, 0.9]` for its wind-strength factor
instead of a single deterministic value. -/
theorem C6_amended_time_bands (hour : ℕ) :
    ((hour ≤ 6 ∨ 22 ≤ hour) →
      Simulator.getTimeBasedWindFactor hour = 12/10 ∧
      DataGenerator.windStrengthRange hour = (7/10, 1)) ∧
    ((10 ≤ hour ∧ hour ≤ 16) →
      Simulator.getTimeBasedWindFactor hour = 6/10 ∧
      DataGenerator.windStrengthRange hour = (3/10, 7/10)) ∧
    (((7 ≤ hour ∧ hour ≤ 9) ∨ (17 ≤ hour ∧ hour ≤ 21)) →
      Simulator.getTimeBasedWindFactor hour = 9/10 ∧
      DataGenerator.windStrengthRange hour = (5/10, 9/10)) := by
  refine ⟨fun h => ?_, fun h => ?_, fun h => ?_⟩
  · have hc : 22 ≤ hour ∨ hour ≤ 6 := by omega
    constructor <;>
      simp only [Simulator.getTimeBasedWindFactor,
        DataGenerator.windStrengthRange, if_pos hc]
  · have hc1 : ¬ (22 ≤ hour ∨ hour ≤ 6) := by omega
    constructor <;>
      simp only [Simulator.getTimeBasedWindFactor,
        DataGenerator.windStrengthRange, if_neg hc1, if_pos h]
  · have hc1 : ¬ (22 ≤ hour ∨ hour ≤ 6) := by omega
    have hc2 : ¬ (10 ≤ hour ∧ hour ≤ 16) := by omega
    constructor <;>
      simp only [Simulator.getTimeBasedWindFactor,
        DataGenerator.windStrengthRange, if_neg hc1, if_neg hc2]

theorem C6_amended_time_bands_witness :
    Simulator.getTimeBasedWindFactor 12 = 6/10 ∧
    DataGenerator.windStrengthRange 12 = (3/10, 7/10) :=
  (C6_amended_time_bands 12).2.1 (by omega)

/-- C7 (counterexample): a subscription request with a valid turbine list and
`interval = 301` — outside `[1, 300]` — is accepted, not rejected with a
ValidationError: the route does not validate the interval range. -/
theorem C7_counterexample_interval_not_validated :
    Streaming.subscribe ⟨some ['T', '1'], 301⟩ =
      Streaming.SubscribeOutcome.subscribed [['T', '1']] 301 ∧
    ¬ ((1 : ℤ) ≤ 301 ∧ (301 : ℤ) ≤ 300) := by
  exact ⟨by decide, by decide⟩

/-- C7 (amended): subscribing fails synchronously with a ValidationError
(and no subscription is created) exactly when the `windTurbineIds` parameter
is missing or yields no nonempty id after splitting on commas and trimming;
`intervalSeconds` is never validated, so any interval value — in or out of
`[1, 300]` — is accepted together with a valid turbine list. -/
theorem C7_amended_subscribe_validation :
    (∀ req : Streaming.SubscribeRequest,
      (∃ msg, Streaming.subscribe req =
        Streaming.SubscribeOutcome.validationError msg) ↔
      (req.windTurbineIds = none ∨
        ∃ s, req.windTurbineIds = some s ∧
          Streaming.parseTurbineIds s = [])) ∧
    (∀ (s : List Char) (i : ℤ), Streaming.parseTurbineIds s ≠ [] →
      Streaming.subscribe ⟨some s, i⟩ =
        Streaming.SubscribeOutcome.subscribed
          (Streaming.parseTurbineIds s) i) := by
  constructor
  · intro req
    obtain ⟨ids, i⟩ := req
    cases ids with
    | none =>
        exact ⟨fun _ => Or.inl rfl, fun _ => ⟨_, rfl⟩⟩
    | some s =>
        by_cases he : Streaming.parseTurbineIds s = []
        · refine ⟨fun _ => Or.inr ⟨s, rfl, he⟩, fun _ =>
            ⟨"At least one valid wind turbine ID must be provided in windTurbineIds parameter.", ?_⟩⟩
          show Streaming.subscribe ⟨some s, i⟩ = _
          simp only [Streaming.subscribe, if_pos he]
        · constructor
          · rintro ⟨msg, hmsg⟩
            rw [show Streaming.subscribe ⟨some s, i⟩ =
              Streaming.SubscribeOutcome.subscribed
                (Streaming.parseTurbineIds s) i from by
              simp only [Streaming.subscribe, if_neg he]] at hmsg
            exact absurd hmsg (by simp)
          · rintro (hnone | ⟨s', hs', hp'⟩)
            · exact absurd hnone (by simp)
            · simp only [Option.some.injEq] at hs'
              subst hs'
              exact absurd hp' he
  · intro s i h
    simp only [Streaming.subscribe, if_neg h]

theorem C7_amended_subscribe_validation_witness :
    Streaming.subscribe ⟨some ['T', '1', ',', 'T', '2'], 7⟩ =
      Streaming.SubscribeOutcome.subscribed
        (Streaming.parseTurbineIds ['T', '1', ',', 'T', '2']) 7 :=
  C7_amended_subscribe_validation.2 ['T', '1', ',', 'T', '2'] 7 (by decide)

/-- C8: in `POST /power-output/batch`, individual readings missing a (truthy)
turbine id or carrying a non-numeric `powerKW` are silently skipped — the
batch itself is not rejected — every well-formed reading is persisted (the
persisted list is exactly the well-formed sublist, in order), and the
response reports `savedCount` = number persisted and `totalReceived` =
length of the submitted array; in particular
`[{windTurbineId:"T1", powerKW:500}, {windTurbineId:"T2"}]` yields
`{savedCount: 1, totalReceived: 2}`. -/
theorem C8_batch_ingest_skips_malformed :
    (∀ rs : List Streaming.BatchReading,
      Streaming.processReadings rs =
        rs.filter Streaming.readingWellFormed) ∧
    (∀ rs : List Streaming.BatchReading,
      Streaming.batchIngest (some rs) =
        Streaming.BatchOutcome.saved
          (rs.filter Streaming.readingWellFormed).length rs.length) ∧
    Streaming.batchIngest
        (some [⟨some "T1", some 500⟩, ⟨some "T2", none⟩]) =
      Streaming.BatchOutcome.saved 1 2 := by
  have hfilter : ∀ rs : List Streaming.BatchReading,
      Streaming.processReadings rs =
        rs.filter Streaming.readingWellFormed := by
    intro rs
    induction rs with
    | nil => rfl
    | cons r rest ih =>
        obtain ⟨wid, pw⟩ := r
        cases wid with
        | none =>
            simp [Streaming.processReadings, Streaming.readingWellFormed, ih]
        | some sid =>
            cases pw with
            | none =>
                simp [Streaming.processReadings,
                  Streaming.readingWellFormed, ih]
            | some q =>
                by_cases hs : sid = ""
                · subst hs
                  simp [Streaming.processReadings,
                    Streaming.readingWellFormed, ih]
                · simp [Streaming.processReadings,
                    Streaming.readingWellFormed, ih, hs]
  refine ⟨hfilter, fun rs => ?_, ?_⟩
  · simp only [Streaming.batchIngest, hfilter rs]
  · rw [show Streaming.batchIngest
        (some [⟨some "T1", some 500⟩, ⟨some "T2", none⟩]) =
      Streaming.BatchOutcome.saved
        (Streaming.processReadings
          [⟨some "T1", some 500⟩, ⟨some "T2", none⟩]).length 2 from rfl]
    have h1 : Streaming.processReadings
        [⟨some "T1", some 500⟩, ⟨some "T2", none⟩] =
        [⟨some "T1", some 500⟩] := by decide
    rw [h1]
    rfl

/-- C9: evidence for the driver-loop scheduling.  The empty-fleet case does
take the fixed 30 s retry without raising, but a fetch failure — although
caught and logged with the "Retrying in 30 seconds..." message — reschedules
after `STREAMING_INTERVAL` (10 s by default), not 30 s, and a submit failure
is caught per batch, leaving the ordinary 10 s cadence. -/
theorem C9_driver_failure_handling :
    (SimulatorLoop.runSimulationCycle 10
      (Except.error "connect ECONNREFUSED") []).raised = false ∧
    (SimulatorLoop.runSimulationCycle 10
      (Except.error "connect ECONNREFUSED") []).retryLogged = true ∧
    (SimulatorLoop.runSimulationCycle 10
      (Except.error "connect ECONNREFUSED") []).nextDelayMs = 10000 ∧
    (10000 : ℕ) ≠ 30000 ∧
    (SimulatorLoop.runSimulationCycle 10 (Except.ok []) []).nextDelayMs =
      30000 ∧
    (SimulatorLoop.runSimulationCycle 10 (Except.ok []) []).raised = false ∧
    (SimulatorLoop.runSimulationCycle 10 (Except.ok [("T1", 1500)])
      [Except.error "socket hang up"]).raised = false ∧
    (SimulatorLoop.runSimulationCycle 10 (Except.ok [("T1", 1500)])
      [Except.error "socket hang up"]).batchErrorsLogged = 1 ∧
    (SimulatorLoop.runSimulationCycle 10 (Except.ok [("T1", 1500)])
      [Except.error "socket hang up"]).nextDelayMs = 10000 :=
  ⟨rfl, rfl, rfl, by decide, rfl, rfl, rfl, rfl, rfl⟩

/-- C10: every `power-output` SSE event carries at most 25 readings no matter
how many turbine IDs the subscription names: the tick resolves subscribed
active turbines under `validateLimit(25) = 25`, so matches beyond the first
25 are omitted from generation, persistence and the pushed event. -/
theorem C10_sse_event_capped_at_25 (db : List Streaming.Turbine)
    (turbineFilter : List String) (draws : List (ℚ × ℚ × ℚ)) :
    Streaming.validateLimit 25 Streaming.DEFAULT_LIMIT = 25 ∧
    (Streaming.sendPowerData db turbineFilter draws).2.length ≤ 25 ∧
    (Streaming.sendPowerData db turbineFilter draws).1.length ≤ 25 ∧
    ∀ item ∈ (Streaming.sendPowerData db turbineFilter draws).2,
      item.turbineId ∈
        ((db.filter (fun t => t.active && turbineFilter.contains t.id)).take
          25).map (fun t => t.id) := by
  have hvl : Streaming.validateLimit 25 Streaming.DEFAULT_LIMIT = 25 := by
    decide
  have hq : Streaming.queryActiveTurbines db turbineFilter
      (Streaming.validateLimit 25 Streaming.DEFAULT_LIMIT) =
      (db.filter (fun t => t.active && turbineFilter.contains t.id)).take
        25 := by
    rw [hvl]
    rfl
  refine ⟨hvl, ?_, ?_, ?_⟩
  · simp only [Streaming.sendPowerData, hq, List.length_map, List.length_zip,
      List.length_take]
    omega
  · simp only [Streaming.sendPowerData, hq, List.length_map, List.length_zip,
      List.length_take]
    omega
  · intro item hitem
    simp only [Streaming.sendPowerData, hq, List.mem_map] at hitem
    obtain ⟨td, ⟨a, haz, hat⟩, hitem⟩ := hitem
    have ht : a.1 ∈ (db.filter
        (fun t => t.active && turbineFilter.contains t.id)).take 25 :=
      (List.of_mem_zip haz).1
    rw [← hitem, ← hat]
    exact List.mem_map.mpr ⟨a.1, ht, rfl⟩

theorem C10_sse_event_capped_at_25_witness :
    (⟨"T1", "Alpha", (750 : ℚ), 1500, 50⟩ : Streaming.PowerOutputItem).turbineId ∈
      ((([⟨"T1", "Alpha", 1500, true⟩] : List Streaming.Turbine).filter
        (fun t => t.active && ["T1"].contains t.id)).take 25).map
        (fun t => t.id) ∧
    (Streaming.sendPowerData [⟨"T1", "Alpha", 1500, true⟩] ["T1"]
      [(1/2, 1, 1)]).2.length ≤ 25 := by
  have h := C10_sse_event_capped_at_25 [⟨"T1", "Alpha", 1500, true⟩] ["T1"]
    [(1/2, 1, 1)]
  have hpw : (DataGenerator.generatePowerOutput "T1" 1500 (1/2) 1
      1).powerKW = 750 := by
    simp only [DataGenerator.generatePowerOutput]
    have h1 : (1500 : ℚ) * (1/2) * 1 * 1 = 750 := by norm_num
    have h2 : (1500 : ℚ) * (12/10) = 1800 := by norm_num
    rw [h1, h2]
    have h3 : max (0 : ℚ) (min (750 : ℚ) 1800) = 750 := by norm_num
    rw [h3]
    show (round ((750 : ℚ) * 100) : ℚ) / 100 = 750
    norm_num
  have heff : round2 ((750 : ℚ) / 1500 * 100) = 50 := by
    have h4 : (750 : ℚ) / 1500 * 100 = 50 := by norm_num
    rw [h4]
    show (round ((50 : ℚ) * 100) : ℚ) / 100 = 50
    norm_num
  have hshape : (Streaming.sendPowerData [⟨"T1", "Alpha", 1500, true⟩]
      ["T1"] [(1/2, 1, 1)]).2 =
      [⟨"T1", "Alpha",
        (DataGenerator.generatePowerOutput "T1" 1500 (1/2) 1 1).powerKW,
        1500,
        round2 ((DataGenerator.generatePowerOutput "T1" 1500 (1/2) 1
          1).powerKW / 1500 * 100)⟩] := rfl
  refine ⟨h.2.2.2 _ ?_, h.2.1⟩
  rw [hshape, hpw, heff]
  exact List.mem_singleton.mpr rfl
